import Mathlib

/-!
Verification of the "Indian Places Guide" Streamlit application
(`src/langchain1.py`) against its natural-language specification.

The Python program is shallowly embedded:

* `LLMConfig` / `initialize_llm` embed the `ChatGroq(...)` construction
  (lines 17-24).
* `create_prompt_template` / `formatPrompt` embed the two-message
  `ChatPromptTemplate` (lines 26-41); an f-string template is represented
  as its parsed segment list (literal text and the `place` variable).
* `get_place_info` embeds the wrapper of lines 43-52; the external Groq
  service is an oracle `LLMService` mapping a configuration and a formatted
  prompt to either a successful text or a raised-exception detail, and the
  `try/except` becomes a `match` on that outcome.
* `processQuery` / `mainStep` embed one render cycle of `main`
  (lines 121-131): the Python truthiness guard `search_button and
  place_input` becomes `search_button && !place_input.isEmpty`, and the
  step result is instrumented with the number of handler executions and
  the list of configurations of the outbound calls made.
* `displayHistory` / `historyView` embed the history section
  (lines 134-140): `reversed(messages[-5:])` rendered only when the list
  is non-empty.
* `runSession` folds render cycles starting from the empty history
  (lines 13-15).
-/

/-- One entry of `st.session_state.messages`: the dict
`{"place": ..., "info": ...}` appended at line 127. -/
structure QueryRecord where
  place : String
  info : String
deriving DecidableEq, Repr

/-- Embedding of the `ChatGroq` configuration object built by
`initialize_llm` (lines 17-24). The float `temperature=0.7` is embedded as
the rational `7/10`; `groq_api_key` is `Option` because `os.getenv` returns
`None` when the environment variable is absent. -/
structure LLMConfig where
  groq_api_key : Option String
  model : String
  temperature : ℚ
  max_tokens : Nat
deriving DecidableEq, Repr

/-- `initialize_llm` (lines 17-24): builds the Groq LLM with custom
settings. -/
def initialize_llm (groq_api_key : Option String) : LLMConfig :=
  { groq_api_key := groq_api_key
    model := "llama3-70b-8192"
    temperature := 7/10
    max_tokens := 1000 }

/-- Module-level `groq_api_key = os.getenv("GROQ_API_KEY")` (line 10),
given the process environment as a partial map. -/
def groq_api_key (env : String → Option String) : Option String :=
  env "GROQ_API_KEY"

/-- One segment of a parsed f-string template: literal text or the
`{place}` input variable. -/
inductive TemplateSeg where
  | lit (s : String)
  | placeVar
deriving DecidableEq, Repr

/-- A chat prompt message: role paired with parsed content segments. -/
abbrev TemplateMsg := String × List TemplateSeg

/-- The constant system instruction of the template (lines 29-38),
verbatim from the source. -/
def systemInstruction : String :=
  "You are a knowledgeable guide about places in India. For each place, provide detailed information about:\n        1. Historical significance\n        2. Cultural importance\n        3. Notable attractions\n        4. Best time to visit\n        5. How to reach\n        6. Local cuisine\n        \n        Format the information in a clear, readable way using markdown headings and paragraphs.\n        Be specific and highlight unique aspects of each place."

/-- `create_prompt_template` (lines 26-41): the two-message
`ChatPromptTemplate`, with the human f-string `"Tell me about {place}"`
parsed into its segments. -/
def create_prompt_template : List TemplateMsg :=
  [("system", [TemplateSeg.lit systemInstruction]),
   ("human", [TemplateSeg.lit "Tell me about ", TemplateSeg.placeVar])]

/-- Render the segments of one message, substituting the place value for
the `{place}` variable. -/
def renderSegs (place : String) : List TemplateSeg → String
  | [] => ""
  | TemplateSeg.lit s :: rest => s ++ renderSegs place rest
  | TemplateSeg.placeVar :: rest => place ++ renderSegs place rest

/-- A fully formatted prompt: list of (role, content) messages. -/
abbrev Prompt := List (String × String)

/-- Formatting the template with `{"place": place}`, as done by
`chain.invoke` (line 49) before the model call. -/
def formatPrompt (place : String) : Prompt :=
  create_prompt_template.map (fun m => (m.1, renderSegs place m.2))

/-- Outcome of one call to the external Groq completion service: either
the generated text (already string-parsed, as `StrOutputParser` yields) or
the detail string `str(e)` of a raised exception. -/
inductive LLMOutcome where
  | success (text : String)
  | failure (detail : String)
deriving DecidableEq, Repr

/-- The external service as an oracle: what one outbound request with a
given configuration and formatted prompt does. -/
abbrev LLMService := LLMConfig → Prompt → LLMOutcome

/-- `get_place_info` (lines 43-52): formats the prompt, performs the
single outbound call, and returns the response text; any raised exception
is caught and converted to `"Error getting information: " ++ str(e)`. -/
def get_place_info (place : String) (llm : LLMConfig) (service : LLMService) : String :=
  match service llm (formatPrompt place) with
  | LLMOutcome.success t => t
  | LLMOutcome.failure e => "Error getting information: " ++ e

/-- Observable result of one render cycle of `main`: the session history
afterwards, how many times the query-handler block (lines 122-131) ran,
and the configuration of each outbound model call made, in order. -/
structure StepResult where
  history : List QueryRecord
  handlerRuns : Nat
  llmCalls : List LLMConfig

/-- The query-processing block of `main` (lines 121-131):
`if search_button and place_input:` — a Python string is truthy iff
non-empty — then `get_place_info` and append to
`st.session_state.messages`. -/
def processQuery (search_button : Bool) (place_input : String)
    (history : List QueryRecord) (llm : LLMConfig) (service : LLMService) :
    StepResult :=
  if search_button && !place_input.isEmpty then
    { history :=
        history ++ [{ place := place_input
                      info := get_place_info place_input llm service }]
      handlerRuns := 1
      llmCalls := [llm] }
  else
    { history := history, handlerRuns := 0, llmCalls := [] }

/-- One render cycle of `main`: line 118 builds the LLM from the
module-level key, then the query block runs (lines 121-131). -/
def mainStep (key : Option String) (search_button : Bool)
    (place_input : String) (history : List QueryRecord)
    (service : LLMService) : StepResult :=
  processQuery search_button place_input history (initialize_llm key) service

/-- `messages[-5:]` — the last (at most) five history entries. -/
def lastFive (l : List QueryRecord) : List QueryRecord :=
  l.drop (l.length - 5)

/-- The displayed entry list of the history section:
`reversed(messages[-5:])` (line 138). -/
def historyView (l : List QueryRecord) : List QueryRecord :=
  (lastFive l).reverse

/-- The history section of `main` (lines 134-140): rendered only when
`st.session_state.messages` is truthy (non-empty); shows
`reversed(messages[-5:])`. `none` means the section is absent. -/
def displayHistory (history : List QueryRecord) : Option (List QueryRecord) :=
  if history.isEmpty then none
  else some (historyView history)

/-- One user interaction with the page: the button state, the input field
content, and the behavior of the external service during that render. -/
structure Interaction where
  search_button : Bool
  place_input : String
  service : LLMService

/-- History evolution over one interaction. -/
def sessionStep (key : Option String) (history : List QueryRecord)
    (i : Interaction) : List QueryRecord :=
  (mainStep key i.search_button i.place_input history i.service).history

/-- A whole session: `st.session_state.messages` starts `[]`
(lines 13-15) and each interaction is one render cycle. -/
def runSession (key : Option String) (is : List Interaction) :
    List QueryRecord :=
  is.foldl (sessionStep key) []

/-- Boolean check that `pat` occurs starting at the head of `l`. -/
def headMatches : List Char → List Char → Bool
  | [], _ => true
  | _ :: _, [] => false
  | p :: ps, c :: cs => p == c && headMatches ps cs

/-- Boolean check that `pat` occurs somewhere inside `l`. -/
def hasSubChars (pat : List Char) : List Char → Bool
  | [] => headMatches pat []
  | c :: cs => headMatches pat (c :: cs) || hasSubChars pat cs

/-- `strContains s pat`: `pat` occurs as a contiguous substring of `s`. -/
def strContains (s pat : String) : Bool :=
  hasSubChars pat.data s.data

/-! ## Helper lemmas -/

/-- A non-empty string is not `isEmpty`. -/
theorem not_isEmpty_of_ne (s : String) (h : s ≠ "") : (!s.isEmpty) = true := by
  rw [Bool.not_eq_true']
  rw [← Bool.not_eq_true, String.isEmpty_iff]
  exact h

/-! ## Claims -/

/-- C1: for every non-empty place string `P`, pressing the trigger button
runs the query-handler block exactly once and appends exactly one record
`{place := P, info := r}` to the session history, where `r` is the string
returned by `get_place_info` for `P`. -/
theorem nonempty_trigger_appends_exactly_one (key : Option String)
    (P : String) (hP : P ≠ "") (hist : List QueryRecord)
    (service : LLMService) :
    (mainStep key true P hist service).handlerRuns = 1 ∧
    (mainStep key true P hist service).history =
      hist ++ [{ place := P
                 info := get_place_info P (initialize_llm key) service }] := by
  have h := not_isEmpty_of_ne P hP
  constructor <;> simp [mainStep, processQuery, h]

/-- Witness for C1: the spec scenario — input "Taj Mahal", successful
model response — appends exactly that record to an empty history. -/
theorem nonempty_trigger_appends_exactly_one_witness :
    (mainStep none true "Taj Mahal" []
      (fun _ _ => LLMOutcome.success "### Historical significance")).handlerRuns = 1 ∧
    (mainStep none true "Taj Mahal" []
      (fun _ _ => LLMOutcome.success "### Historical significance")).history =
      [{ place := "Taj Mahal", info := "### Historical significance" }] :=
  nonempty_trigger_appends_exactly_one none "Taj Mahal" (by decide) []
    (fun _ _ => LLMOutcome.success "### Historical significance")

/-- C2: whenever the outbound call fails (for any cause, with detail `e`),
`get_place_info` returns a string beginning with
"Error getting information: " (no exception escapes: the embedding is a
total function), and the query handler still appends a record carrying
that error string as its `info` field. -/
theorem failure_downgraded_and_recorded (key : Option String)
    (place e : String) (service : LLMService)
    (hfail : service (initialize_llm key) (formatPrompt place) =
      LLMOutcome.failure e) :
    (∃ rest, get_place_info place (initialize_llm key) service =
        "Error getting information: " ++ rest) ∧
    get_place_info place (initialize_llm key) service =
      "Error getting information: " ++ e ∧
    (place ≠ "" → ∀ hist,
      (mainStep key true place hist service).history =
        hist ++ [{ place := place
                   info := "Error getting information: " ++ e }]) := by
  have hinfo : get_place_info place (initialize_llm key) service =
      "Error getting information: " ++ e := by
    simp [get_place_info, hfail]
  refine ⟨⟨e, hinfo⟩, hinfo, ?_⟩
  intro hp hist
  have h := not_isEmpty_of_ne place hp
  simp [mainStep, processQuery, h, hinfo]

/-- Witness for C2: the spec scenario — input "Hampi", a timeout raised by
the outbound call — yields the error string and the record is appended. -/
theorem failure_downgraded_and_recorded_witness :
    get_place_info "Hampi" (initialize_llm none)
      (fun _ _ => LLMOutcome.failure "Request timed out") =
      "Error getting information: Request timed out" ∧
    (mainStep none true "Hampi" []
      (fun _ _ => LLMOutcome.failure "Request timed out")).history =
      [{ place := "Hampi"
         info := "Error getting information: Request timed out" }] := by
  have h := failure_downgraded_and_recorded none "Hampi" "Request timed out"
    (fun _ _ => LLMOutcome.failure "Request timed out") rfl
  exact ⟨h.2.1, h.2.2 (by decide) []⟩

/-- C3: for a history of length at least 5, the rendered history section
is present, shows exactly 5 entries, most-recent-first: entry `i` is
`history[N-1-i]`, and in particular the first displayed entry is the last
appended record. -/
theorem history_section_caps_at_five (hist : List QueryRecord)
    (h5 : 5 ≤ hist.length) :
    displayHistory hist = some (historyView hist) ∧
    (historyView hist).length = 5 ∧
    (historyView hist).head? = hist.getLast? ∧
    ∀ i, i < 5 → (historyView hist)[i]? = hist[hist.length - 1 - i]? := by
  have hne : hist.isEmpty = false := by
    cases hist with
    | nil => simp at h5
    | cons a l => rfl
  have hlF : (lastFive hist).length = 5 := by
    simp [lastFive]
    omega
  have hlen : (historyView hist).length = 5 := by
    simp [historyView, hlF]
  have hidx : ∀ i, i < 5 →
      (historyView hist)[i]? = hist[hist.length - 1 - i]? := by
    intro i hi
    have hi' : i < (lastFive hist).length := by omega
    rw [historyView, List.getElem?_reverse hi', hlF]
    show (hist.drop (hist.length - 5))[5 - 1 - i]? = _
    rw [List.getElem?_drop]
    congr 1
    omega
  refine ⟨by simp [displayHistory, hne], hlen, ?_, hidx⟩
  have h0 := hidx 0 (by omega)
  rw [List.head?_eq_getElem?, List.getLast?_eq_getElem?]
  simpa using h0

/-- Witness for C3: six records; the section shows 5, newest first. -/
theorem history_section_caps_at_five_witness :
    displayHistory
        [⟨"p1", "i1"⟩, ⟨"p2", "i2"⟩, ⟨"p3", "i3"⟩,
         ⟨"p4", "i4"⟩, ⟨"p5", "i5"⟩, ⟨"p6", "i6"⟩] =
      some (historyView
        [⟨"p1", "i1"⟩, ⟨"p2", "i2"⟩, ⟨"p3", "i3"⟩,
         ⟨"p4", "i4"⟩, ⟨"p5", "i5"⟩, ⟨"p6", "i6"⟩]) ∧
    (historyView
        [⟨"p1", "i1"⟩, ⟨"p2", "i2"⟩, ⟨"p3", "i3"⟩,
         ⟨"p4", "i4"⟩, ⟨"p5", "i5"⟩, ⟨"p6", "i6"⟩]).length = 5 ∧
    (historyView
        [⟨"p1", "i1"⟩, ⟨"p2", "i2"⟩, ⟨"p3", "i3"⟩,
         ⟨"p4", "i4"⟩, ⟨"p5", "i5"⟩, ⟨"p6", "i6"⟩]).head? =
      List.getLast?
        [⟨"p1", "i1"⟩, ⟨"p2", "i2"⟩, ⟨"p3", "i3"⟩,
         ⟨"p4", "i4"⟩, ⟨"p5", "i5"⟩, ⟨"p6", "i6"⟩] ∧
    ∀ i, i < 5 →
      (historyView
        [⟨"p1", "i1"⟩, ⟨"p2", "i2"⟩, ⟨"p3", "i3"⟩,
         ⟨"p4", "i4"⟩, ⟨"p5", "i5"⟩, ⟨"p6", "i6"⟩])[i]? =
      (List.cons (⟨"p1", "i1"⟩ : QueryRecord)
        [⟨"p2", "i2"⟩, ⟨"p3", "i3"⟩,
         ⟨"p4", "i4"⟩, ⟨"p5", "i5"⟩, ⟨"p6", "i6"⟩])[6 - 1 - i]? :=
  history_section_caps_at_five
    [⟨"p1", "i1"⟩, ⟨"p2", "i2"⟩, ⟨"p3", "i3"⟩,
     ⟨"p4", "i4"⟩, ⟨"p5", "i5"⟩, ⟨"p6", "i6"⟩] (by decide)

/-- C4 counterexample: with a whitespace-only input `" "` (non-empty,
hence truthy in Python), pressing the button is NOT a no-op: the handler
block runs, one outbound call is made, and a record is appended. -/
theorem whitespace_input_not_noop :
    (mainStep none true " " []
      (fun _ _ => LLMOutcome.success "info")).handlerRuns = 1 ∧
    (mainStep none true " " []
      (fun _ _ => LLMOutcome.success "info")).llmCalls.length = 1 ∧
    (mainStep none true " " []
      (fun _ _ => LLMOutcome.success "info")).history =
      [{ place := " ", info := "info" }] :=
  ⟨rfl, rfl, rfl⟩

/-- C4 (amended): for the empty place input, pressing (or not pressing)
the trigger button is a no-op: the handler block does not run, no
outbound call is made, and the session history is unchanged. (Whitespace-
only input is truthy in Python and does trigger the handler.) -/
theorem empty_input_trigger_noop (key : Option String) (btn : Bool)
    (hist : List QueryRecord) (service : LLMService) :
    (mainStep key btn "" hist service).history = hist ∧
    (mainStep key btn "" hist service).handlerRuns = 0 ∧
    (mainStep key btn "" hist service).llmCalls = [] := by
  have h : ("" : String).isEmpty = true := rfl
  constructor
  · simp [mainStep, processQuery, h]
  constructor
  · simp [mainStep, processQuery, h]
  · simp [mainStep, processQuery, h]

/-- C5: for the empty place input specifically, pressing the trigger
button never makes an outbound model call and never mutates the session
history. -/
theorem empty_input_never_calls_never_mutates (key : Option String)
    (hist : List QueryRecord) (service : LLMService) :
    (mainStep key true "" hist service).llmCalls = [] ∧
    (mainStep key true "" hist service).history = hist := by
  have h : ("" : String).isEmpty = true := rfl
  constructor <;> simp [mainStep, processQuery, h]

/-- C6: the session history starts empty on first load and is
append-only: every interaction either leaves it unchanged or appends
exactly one record at the end, and the prior records (values and order)
survive unchanged as the prefix of the new history. -/
theorem session_history_append_only (key : Option String)
    (hist : List QueryRecord) (i : Interaction) :
    runSession key [] = [] ∧
    (sessionStep key hist i = hist ∨
      ∃ r, sessionStep key hist i = hist ++ [r]) ∧
    (sessionStep key hist i).take hist.length = hist := by
  have hstep : sessionStep key hist i = hist ∨
      ∃ r, sessionStep key hist i = hist ++ [r] := by
    unfold sessionStep mainStep processQuery
    split
    · right; exact ⟨_, rfl⟩
    · left; rfl
  refine ⟨rfl, hstep, ?_⟩
  rcases hstep with h | ⟨r, h⟩
  · rw [h]
    exact List.take_length hist
  · rw [h]
    exact List.take_left hist [r]

set_option maxRecDepth 100000 in
/-- C7: for every place string (including empty or whitespace — no
validation is performed), formatting the template deterministically yields
exactly two messages: the fixed system instruction (which names the six
required categories and the markdown directive) and the human message
"Tell me about " followed by the place name verbatim. -/
theorem prompt_composer_two_messages (place : String) :
    formatPrompt place =
      [("system", systemInstruction),
       ("human", "Tell me about " ++ place)] ∧
    strContains systemInstruction "Historical significance" = true ∧
    strContains systemInstruction "Cultural importance" = true ∧
    strContains systemInstruction "Notable attractions" = true ∧
    strContains systemInstruction "Best time to visit" = true ∧
    strContains systemInstruction "How to reach" = true ∧
    strContains systemInstruction "Local cuisine" = true ∧
    strContains systemInstruction "markdown" = true := by
  refine ⟨?_, rfl, rfl, rfl, rfl, rfl, rfl, rfl⟩
  simp [formatPrompt, create_prompt_template, renderSegs, String.append_empty]

/-- C8: the LLM configuration is determined once from the startup key and
is fixed: model "llama3-70b-8192" (the 70-billion-parameter
instruction-tuned model), temperature 0.7, max output tokens 1000 — and
every outbound call made by any render cycle uses exactly that one
configuration. -/
theorem llm_config_static (key : Option String) (btn : Bool)
    (place : String) (hist : List QueryRecord) (service : LLMService) :
    (initialize_llm key).model = "llama3-70b-8192" ∧
    (initialize_llm key).temperature = 7/10 ∧
    (initialize_llm key).max_tokens = 1000 ∧
    ∀ c ∈ (mainStep key btn place hist service).llmCalls,
      c = initialize_llm key := by
  refine ⟨rfl, rfl, rfl, ?_⟩
  intro c hc
  unfold mainStep processQuery at hc
  split at hc
  · simpa using hc
  · simp at hc

/-- C9: when the API-key environment variable is absent, startup does not
fail: the module-level key is `none`, the LLM client is configured with a
null credential, and a missing credential can only surface as a
per-request failure, which the wrapper downgrades to an error string. -/
theorem missing_api_key_proceeds (env : String → Option String)
    (henv : env "GROQ_API_KEY" = none) :
    groq_api_key env = none ∧
    initialize_llm (groq_api_key env) =
      { groq_api_key := none, model := "llama3-70b-8192",
        temperature := 7/10, max_tokens := 1000 } ∧
    (initialize_llm (groq_api_key env)).groq_api_key = none ∧
    ∀ place e (service : LLMService),
      service (initialize_llm (groq_api_key env)) (formatPrompt place) =
        LLMOutcome.failure e →
      get_place_info place (initialize_llm (groq_api_key env)) service =
        "Error getting information: " ++ e := by
  have hkey : groq_api_key env = none := henv
  refine ⟨hkey, by rw [hkey]; rfl, by rw [hkey]; rfl, ?_⟩
  intro place e service hfail
  simp [get_place_info, hfail]

/-- Witness for C9: with an empty environment, the key is `none`, the
config carries the null credential, and an auth failure comes back as the
error string. -/
theorem missing_api_key_proceeds_witness :
    groq_api_key (fun _ => none) = none ∧
    (initialize_llm (groq_api_key (fun _ => none))).groq_api_key = none ∧
    get_place_info "Agra" (initialize_llm (groq_api_key (fun _ => none)))
      (fun _ _ => LLMOutcome.failure "Invalid API Key") =
      "Error getting information: Invalid API Key" := by
  have h := missing_api_key_proceeds (fun _ => none) rfl
  exact ⟨h.1, h.2.2.1,
    h.2.2.2 "Agra" "Invalid API Key"
      (fun _ _ => LLMOutcome.failure "Invalid API Key") rfl⟩

/-- C10: for a history of length `N` with `0 < N < 5` the rendered
history section shows exactly `N` entries in most-recent-first order, and
for `N = 0` the section is not rendered at all. -/
theorem short_history_display (hist : List QueryRecord)
    (h5 : hist.length < 5) :
    (hist.length = 0 → displayHistory hist = none) ∧
    (0 < hist.length →
      displayHistory hist = some (historyView hist) ∧
      (historyView hist).length = hist.length ∧
      ∀ i, i < hist.length →
        (historyView hist)[i]? = hist[hist.length - 1 - i]?) := by
  constructor
  · intro h0
    have hnil : hist = [] := List.length_eq_zero.mp h0
    subst hnil
    rfl
  · intro hpos
    have hne : hist.isEmpty = false := by
      cases hist with
      | nil => simp at hpos
      | cons a l => rfl
    have hdrop : hist.length - 5 = 0 := by omega
    have hlast : lastFive hist = hist := by
      simp [lastFive, hdrop]
    refine ⟨by simp [displayHistory, hne], ?_, ?_⟩
    · simp [historyView, hlast]
    · intro i hi
      rw [historyView, hlast, List.getElem?_reverse hi]

/-- Witness for C10: two records; the section shows both, newest first
(and the length-0 branch is vacuous here). -/
theorem short_history_display_witness :
    ((List.cons (⟨"p1", "i1"⟩ : QueryRecord) [⟨"p2", "i2"⟩]).length = 0 →
      displayHistory [⟨"p1", "i1"⟩, ⟨"p2", "i2"⟩] = none) ∧
    (0 < (List.cons (⟨"p1", "i1"⟩ : QueryRecord) [⟨"p2", "i2"⟩]).length →
      displayHistory [⟨"p1", "i1"⟩, ⟨"p2", "i2"⟩] =
        some (historyView [⟨"p1", "i1"⟩, ⟨"p2", "i2"⟩]) ∧
      (historyView
        [(⟨"p1", "i1"⟩ : QueryRecord), ⟨"p2", "i2"⟩]).length =
        (List.cons (⟨"p1", "i1"⟩ : QueryRecord) [⟨"p2", "i2"⟩]).length ∧
      ∀ i, i < (List.cons (⟨"p1", "i1"⟩ : QueryRecord) [⟨"p2", "i2"⟩]).length →
        (historyView [⟨"p1", "i1"⟩, ⟨"p2", "i2"⟩])[i]? =
        (List.cons (⟨"p1", "i1"⟩ : QueryRecord)
          [⟨"p2", "i2"⟩])[(List.cons (⟨"p1", "i1"⟩ : QueryRecord)
            [⟨"p2", "i2"⟩]).length - 1 - i]?) :=
  short_history_display [⟨"p1", "i1"⟩, ⟨"p2", "i2"⟩] (by decide)
